import Mathlib

/-!
Verification of the UDC DSP firmware (cnpem-emi/udc-dsp-fw) core modules
against its natural-language specification.

Shallow embedding conventions:
* C `float`/`double` values are modelled as exact rationals (`ℚ`); the
  firmware's floating-point arithmetic is idealized as exact rational
  arithmetic.
* Machine integers are modelled as `ℕ` (all relevant source values are
  unsigned); 32-bit interlock bitmasks are `ℕ` manipulated with `&&&`/`|||`
  on powers of two, mirroring the `lut_bit_position` table.
* Global mutable state (`g_parameters`, `g_event_manager[id]`,
  `g_ipc_ctom.ps_module[id]`, a `siggen_t` instance) becomes explicit state
  records passed and returned by each operation; a C function that mutates
  state in place becomes a Lean function from state to state.
* `NAN` returns are modelled by `Option ℚ` with `none` standing for NaN.
* The C `sin` routine (transcendental, used only to produce output samples)
  is a parameter `sinv : ℚ → ℚ` of the sine run function; no claim depends
  on its values.
-/

namespace UdcDspFw

/-! ## Parameter bank (`src/elp_libs/parameters/parameters.c`) -/

/-- Parameter value types, from `param_type_t` (uint16 / uint32 / float per
the spec's data model). -/
inductive param_type_t where
  | is_uint16_t
  | is_uint32_t
  | is_float
deriving DecidableEq, Repr

/-- One parameter slot of `g_parameters`: id, type, element count and the
backing-storage pointer `p_val` (modelled as a base address into an abstract
memory). -/
structure param_t where
  id : ℕ
  ptype : param_type_t
  num_elements : ℕ
  p_val : ℕ
deriving DecidableEq, Repr

/-- State of the parameter bank: the `g_parameters` array (indexed by
parameter id) together with the external backing storage it points into,
modelled as an addressed memory of scalar cells. -/
structure param_bank_t where
  g_parameters : ℕ → param_t
  mem : ℕ → ℚ

/-- Truncation toward zero, the semantics of C's float-to-unsigned-integer
cast for in-range values. -/
def ratTrunc (v : ℚ) : ℤ :=
  if 0 ≤ v then ⌊v⌋ else ⌈v⌉

/-- Value stored into backing storage by `set_param`: `(uint16_t) val`,
`(uint32_t) val` or the float itself, per the slot's type. The `emod`
reflects the 16/32-bit width of the destination cell. -/
def param_store_val (ty : param_type_t) (v : ℚ) : ℚ :=
  match ty with
  | .is_uint16_t => (((ratTrunc v).emod 65536 : ℤ) : ℚ)
  | .is_uint32_t => (((ratTrunc v).emod 4294967296 : ℤ) : ℚ)
  | .is_float => v

/-- Embedding of `init_param` (parameters.c, lines 29-41): binds a slot to a
type, element count and backing pointer, but only when `num_elements > 0`. -/
def init_param (s : param_bank_t) (id : ℕ) (ty : param_type_t)
    (num_elements : ℕ) (p_param : ℕ) : param_bank_t :=
  if 0 < num_elements then
    { s with
      g_parameters := fun j =>
        if j = id then
          { id := id, ptype := ty, num_elements := num_elements,
            p_val := p_param }
        else s.g_parameters j }
  else
    s

/-- Embedding of `set_param` (parameters.c, lines 43-79): bounds-checked
write through the slot's backing pointer, converting per the slot's type;
returns 1 on success and 0 when `n` is out of range. -/
def set_param (s : param_bank_t) (id : ℕ) (n : ℕ) (val : ℚ) :
    param_bank_t × ℕ :=
  if n < (s.g_parameters id).num_elements then
    ({ s with
       mem := fun a =>
         if a = (s.g_parameters id).p_val + n then
           param_store_val (s.g_parameters id).ptype val
         else s.mem a }, 1)
  else
    (s, 0)

/-- Embedding of `get_param` (parameters.c, lines 81-112): bounds-checked
read through the slot's backing pointer; `none` models the `NAN` return for
an out-of-range index. -/
def get_param (s : param_bank_t) (id : ℕ) (n : ℕ) : Option ℚ :=
  if n < (s.g_parameters id).num_elements then
    some (s.mem ((s.g_parameters id).p_val + n))
  else
    none

/-! ## Event / interlock manager (`src/elp_libs/event_manager/event_manager.c`)

The per-module state `g_event_manager[id]` together with the interlock
fields of `g_ipc_ctom.ps_module[id]` becomes one explicit state record; the
module's polymorphic `turn_off(id)` callback (a function pointer installed
by the topology) is abstracted by a counter of its invocations. The
`USE_ITLK`-guarded lines are included: the spec describes the protective
build, in which a committed interlock invokes turn-off and latches the
Interlock state. -/

/-- Modelled from the spec: `ps_state_t` from `ipc.h` (not under `src/`);
the spec's §4.5 state set Off, Interlock, Initializing, SlowRef,
SlowRefSync, RmpWfm, MigWfm, Cycle, in declaration order. Only the relative
order of the first three states is used by the claims. -/
inductive ps_state_t where
  | Off
  | Interlock
  | Initializing
  | SlowRef
  | SlowRefSync
  | RmpWfm
  | MigWfm
  | Cycle
deriving DecidableEq, Repr

/-- Numeric value of a `ps_state_t` enumerator, used for the C `<`
comparisons on states. -/
def ps_state_val : ps_state_t → ℕ
  | .Off => 0
  | .Interlock => 1
  | .Initializing => 2
  | .SlowRef => 3
  | .SlowRefSync => 4
  | .RmpWfm => 5
  | .MigWfm => 6
  | .Cycle => 7

/-- One debounced interlock channel, from `event_t`. -/
structure event_t where
  flag : Bool
  counter : ℕ
  debounce_count : ℕ
  reset_count : ℕ
deriving DecidableEq, Repr

/-- One set of interlock channels (`hard_interlocks` or `soft_interlocks`):
a configured count plus the fixed-size channel array, modelled as a
function. -/
structure event_group_t where
  num_events : ℕ
  event : ℕ → event_t

/-- Modelled from the spec: `NUM_MAX_EVENT_COUNTER` from
`event_manager.h` (not under `src/`); the channel arrays are sized to the
32 bit positions of the per-module interlock bitmask
(`lut_bit_position[32]`). -/
def NUM_MAX_EVENT_COUNTER : ℕ := 32

/-- Embedding of the `lut_bit_position` table: bit position to bit mask
(the table entry `lut_bit_position[i]` equals `2 ^ i` for `i < 32`). -/
def lut_bit_position (i : ℕ) : ℕ := 2 ^ i

/-- Modelled from the spec: the `SATURATE(var, max, min)` macro (its header
is not under `src/`); per the spec's wording the value is capped to the
interval `[min, max]`, checking the upper bound first. -/
def SATURATE (x maxv minv : ℕ) : ℕ :=
  if x > maxv then maxv else if x < minv then minv else x

/-- Maximum debouncing parameter `MAX_DEBOUNCE_TIME_US` [us]. -/
def MAX_DEBOUNCE_TIME_US : ℕ := 5000000

/-- Maximum debouncing parameter `MAX_RESET_TIME_US` [us]. -/
def MAX_RESET_TIME_US : ℕ := 10000000

/-- Combined per-module state: `g_event_manager[id]` (time-base flag,
time-base frequency, the two channel groups) plus the interlock-relevant
fields of `g_ipc_ctom.ps_module[id]` (the two sticky bitmasks and the
operating state), plus the abstraction of the module's `turn_off` callback
as an invocation counter. -/
structure module_state_t where
  timebase_flag : Bool
  freq_timebase : ℚ
  hard_interlocks : event_group_t
  soft_interlocks : event_group_t
  ps_hard_interlock : ℕ
  ps_soft_interlock : ℕ
  ps_state : ps_state_t
  turn_off_calls : ℕ

/-- Debounce/reset count derived from a time in microseconds:
`(uint32_t)((freq_timebase * t_us) * 1e-6)` with the float arithmetic
idealized over `ℚ` and the cast as floor (the operands are nonnegative in
every use). -/
def counts_from_us (freq : ℚ) (t_us : ℕ) : ℕ :=
  (⌊freq * (t_us : ℚ) * (1 / 1000000)⌋).toNat

/-- Initialization of one configured interlock channel, from the loop body
of `init_event_manager` (event_manager.c, lines 112-135): the debounce time
is saturated to `MAX_DEBOUNCE_TIME_US`, and the reset count is saturated to
`[debounce_count + 1, max_reset_counts]`. -/
def init_itlk_event (freq : ℚ) (max_reset_counts : ℕ)
    (debounce_time_us reset_time_us : ℕ) : event_t :=
  let db_us := SATURATE debounce_time_us MAX_DEBOUNCE_TIME_US 0
  let debounce_count := counts_from_us freq db_us
  let reset_count := counts_from_us freq reset_time_us
  { flag := false, counter := 0, debounce_count := debounce_count,
    reset_count := SATURATE reset_count max_reset_counts
      (debounce_count + 1) }

/-- Initialization of one channel group by `init_event_manager`: channels
below `num` are configured from the time arrays, the remaining channels up
to `NUM_MAX_EVENT_COUNTER` are zeroed. -/
def init_event_group (freq : ℚ) (num : ℕ)
    (debounce_times reset_times : ℕ → ℕ) (old : event_group_t) :
    event_group_t :=
  { num_events := num,
    event := fun i =>
      if i < NUM_MAX_EVENT_COUNTER then
        if i < num then
          init_itlk_event freq (counts_from_us freq MAX_RESET_TIME_US)
            (debounce_times i) (reset_times i)
        else
          { flag := false, counter := 0, debounce_count := 0,
            reset_count := 0 }
      else old.event i }

/-- Embedding of `init_event_manager` (event_manager.c, lines 89-175) for
one module id: clears the time-base flag, records the time-base frequency
and initializes both channel groups; the ps_module fields are not touched. -/
def init_event_manager (s : module_state_t) (freq : ℚ)
    (num_hard_itlks num_soft_itlks : ℕ)
    (hard_debounce hard_reset soft_debounce soft_reset : ℕ → ℕ) :
    module_state_t :=
  { s with
    timebase_flag := false
    freq_timebase := freq
    hard_interlocks :=
      init_event_group freq num_hard_itlks hard_debounce hard_reset
        s.hard_interlocks
    soft_interlocks :=
      init_event_group freq num_soft_itlks soft_debounce soft_reset
        s.soft_interlocks }

/-- One debounce step of a single channel, from the loop bodies of
`run_interlocks_debouncing` (event_manager.c, lines 194-218): a flagged
channel's counter is pre-incremented, and on reaching the reset count the
flag and counter are cleared. -/
def debounce_event (e : event_t) : event_t :=
  if e.flag then
    if e.counter + 1 ≥ e.reset_count then
      { e with flag := false, counter := 0 }
    else
      { e with counter := e.counter + 1 }
  else e

/-- Debounce step applied to every configured channel of a group. -/
def debounce_group (g : event_group_t) : event_group_t :=
  { g with
    event := fun i =>
      if i < g.num_events then debounce_event (g.event i) else g.event i }

/-- Embedding of `run_interlocks_debouncing` (event_manager.c, lines
187-222): when the time-base flag is set, runs the debounce step over both
channel groups and consumes (clears) the flag; otherwise does nothing. -/
def run_interlocks_debouncing (s : module_state_t) : module_state_t :=
  if s.timebase_flag then
    { s with
      hard_interlocks := debounce_group s.hard_interlocks
      soft_interlocks := debounce_group s.soft_interlocks
      timebase_flag := false }
  else s

/-- Pointwise update of one channel in a group (assignment to
`...event[itlk]`). -/
def update_event (g : event_group_t) (i : ℕ) (f : event_t → event_t) :
    event_group_t :=
  { g with event := fun j => if j = i then f (g.event j) else g.event j }

/-- Embedding of `set_hard_interlock` (event_manager.c, lines 232-256),
with the `USE_ITLK` lines active: bounds-checked; sets the channel flag;
when the counter is already at the debounce count, commits (turn-off
callback, state Interlock, bitmask OR) unless the bit is already latched,
then clears the channel flag and counter. -/
def set_hard_interlock (s : module_state_t) (itlk : ℕ) : module_state_t :=
  if itlk < s.hard_interlocks.num_events then
    let s1 := { s with
      hard_interlocks :=
        update_event s.hard_interlocks itlk fun e => { e with flag := true } }
    if (s1.hard_interlocks.event itlk).counter ≥
        (s1.hard_interlocks.event itlk).debounce_count then
      let s2 :=
        if s1.ps_hard_interlock &&& lut_bit_position itlk = 0 then
          { s1 with
            turn_off_calls := s1.turn_off_calls + 1
            ps_state := ps_state_t.Interlock
            ps_hard_interlock :=
              s1.ps_hard_interlock ||| lut_bit_position itlk }
        else s1
      { s2 with
        hard_interlocks :=
          update_event s2.hard_interlocks itlk fun e =>
            { e with flag := false, counter := 0 } }
    else s1
  else s

/-- Embedding of `set_soft_interlock` (event_manager.c, lines 266-290),
the soft-channel twin of `set_hard_interlock`. -/
def set_soft_interlock (s : module_state_t) (itlk : ℕ) : module_state_t :=
  if itlk < s.soft_interlocks.num_events then
    let s1 := { s with
      soft_interlocks :=
        update_event s.soft_interlocks itlk fun e => { e with flag := true } }
    if (s1.soft_interlocks.event itlk).counter ≥
        (s1.soft_interlocks.event itlk).debounce_count then
      let s2 :=
        if s1.ps_soft_interlock &&& lut_bit_position itlk = 0 then
          { s1 with
            turn_off_calls := s1.turn_off_calls + 1
            ps_state := ps_state_t.Interlock
            ps_soft_interlock :=
              s1.ps_soft_interlock ||| lut_bit_position itlk }
        else s1
      { s2 with
        soft_interlocks :=
          update_event s2.soft_interlocks itlk fun e =>
            { e with flag := false, counter := 0 } }
    else s1
  else s

/-! ## FAP-4P power-supply module (`src/elp_libs/ps_modules/fap_4p.c`)

The globals touched by `turn_off`, `reset_controller` and
`reset_interlocks` (the eight PWM modulators, the four DC-link contactor
pins, the DSP stages of the control pipeline, the signal generator and the
ps_module record) become one explicit state record. The DSP stage reset
routines (`reset_dsp_srlim`, `reset_dsp_error`, `reset_dsp_pi`,
`reset_wfmref` live in control-library files not under `src/`) are
modelled from the spec: each primitive's `reset()` clears its internal
state to the neutral/zero value without touching configuration, so each
stage's mutable state is a rational cleared to 0. -/

/-- State of the FAP-4P topology touched by its safe-stop and interlock
reset paths. PWM enables/duties are indexed by the eight channels
`IGBT_{1,2}_MOD_{1..4}`, contactor pins by the four modules. `loop_state`
models the `LOOP_STATE` configuration parameter loaded into the open-loop
status bit by `reset_controller`. -/
structure fap_4p_state_t where
  pwm_enabled : Fin 8 → Bool
  pwm_duty : Fin 8 → ℚ
  dclink_contactor_closed : Fin 4 → Bool
  openloop : Bool
  loop_state : Bool
  i_load_setpoint : ℚ
  i_load_reference : ℚ
  srlim_i_load_reference : ℚ
  dsp_error_i_load : ℚ
  pi_i_load : ℚ
  pi_i_share : Fin 4 → ℚ
  srlim_siggen_amp : ℚ
  srlim_siggen_offset : ℚ
  siggen_enable : Bool
  wfmref_state : ℚ
  ps_hard_interlock : ℕ
  ps_soft_interlock : ℕ
  ps_alarms : ℕ
  ps_state : ps_state_t

/-- Embedding of `reset_controller` (fap_4p.c, lines 670-700): zeroes all
eight PWM duty cycles, reloads the open-loop flag, zeroes setpoint and
reference, resets every DSP stage of the pipeline, disables the signal
generator and resets the waveform reference. -/
def fap_4p_reset_controller (s : fap_4p_state_t) : fap_4p_state_t :=
  { s with
    pwm_duty := fun _ => 0
    openloop := s.loop_state
    i_load_setpoint := 0
    i_load_reference := 0
    srlim_i_load_reference := 0
    dsp_error_i_load := 0
    pi_i_load := 0
    pi_i_share := fun _ => 0
    srlim_siggen_amp := 0
    srlim_siggen_offset := 0
    siggen_enable := false
    wfmref_state := 0 }

/-- Embedding of `turn_off` (fap_4p.c, lines 1138-1162): disables the eight
PWM outputs, opens the four DC-link contactors, resets the controller, and
sets the operating state to Off unless it is Interlock. -/
def fap_4p_turn_off (s : fap_4p_state_t) : fap_4p_state_t :=
  let s1 := { s with
    pwm_enabled := fun _ => false
    dclink_contactor_closed := fun _ => false }
  let s2 := fap_4p_reset_controller s1
  if s2.ps_state ≠ ps_state_t.Interlock then
    { s2 with ps_state := ps_state_t.Off }
  else s2

/-- Embedding of `reset_interlocks` (fap_4p.c, lines 1169-1213): always
clears the hard/soft interlock bitmasks and the alarms; when the state is
below Initializing, pulses any closed DC-link contactor (leaving all four
open) and sets the state to Off. -/
def fap_4p_reset_interlocks (s : fap_4p_state_t) : fap_4p_state_t :=
  let s1 := { s with
    ps_hard_interlock := 0
    ps_soft_interlock := 0
    ps_alarms := 0 }
  if ps_state_val s1.ps_state < ps_state_val ps_state_t.Initializing then
    { s1 with
      dclink_contactor_closed := fun _ => false
      ps_state := ps_state_t.Off }
  else s1

/-- State of the FAC-2P4S AC/DC topology's two coupled modules (MOD_A,
MOD_B) touched by its `reset_interlocks` (the second implementation cited
by the spec, in `src/elp_libs/parameters/parameters.c`). -/
structure fac_2p4s_acdc_state_t where
  hard_interlock_mod_a : ℕ
  soft_interlock_mod_a : ℕ
  hard_interlock_mod_b : ℕ
  soft_interlock_mod_b : ℕ
  ps_state_mod_a : ps_state_t
  ps_state_mod_b : ps_state_t

/-- Embedding of the FAC-2P4S AC/DC `reset_interlocks` (parameters.c, lines
1004-1017): always clears both modules' hard/soft interlock bitmasks; when
module A's state (shared leader state) is below Initializing, sets both
modules' states to Off. -/
def fac_2p4s_acdc_reset_interlocks (s : fac_2p4s_acdc_state_t) :
    fac_2p4s_acdc_state_t :=
  let s1 := { s with
    hard_interlock_mod_a := 0
    soft_interlock_mod_a := 0
    hard_interlock_mod_b := 0
    soft_interlock_mod_b := 0 }
  if ps_state_val s1.ps_state_mod_a < ps_state_val ps_state_t.Initializing
  then
    { s1 with
      ps_state_mod_a := ps_state_t.Off
      ps_state_mod_b := ps_state_t.Off }
  else s1

/-! ## Signal generator (`src/unnamed/part_000`, the source of `siggen.c`)

A `siggen_t` instance becomes an explicit record; the output pointer
`p_out` is split into an opaque address `p_out` and the pointed-to scalar
`out` (the value the run functions write); the run-function pointer
`p_run_siggen` becomes a tag naming the installed run function. -/

/-- Modelled from the spec: the signal-type enumeration of `siggen.h` (not
under `src/`); the spec's §3 variant set {Sine, DampedSine, Trapezoidal}. -/
inductive siggen_type_t where
  | Sine
  | DampedSine
  | Trapezoidal
deriving DecidableEq, Repr

/-- Tag for the `p_run_siggen` function pointer. -/
inductive siggen_run_t where
  | run_sine
  | run_dampedsine
  | run_trapezoidal
deriving DecidableEq, Repr

/-- Modelled from the spec: `NUM_SIGGEN_AUX_PARAM` from `siggen.h` (not
under `src/`); the source reads `aux_param[0..2]`, and the array size is
taken as 4 (its exact value does not affect any claim). -/
def NUM_SIGGEN_AUX_PARAM : ℕ := 4

/-- Modelled from the spec: `NUM_SIGGEN_AUX_VAR` from `siggen.h` (not under
`src/`); the spec's §3 gives 6 auxiliary derived variables, matching the
source's uses of `aux_var[0..5]`. -/
def NUM_SIGGEN_AUX_VAR : ℕ := 6

/-- The `PI` constant of siggen.c (its decimal literal taken exactly). -/
def PI : ℚ := 3.14159265358979323846

/-- Pointwise update of one cell of a C float array modelled as `ℕ → ℚ`
(assignment `arr[i] = v`). -/
def updn (f : ℕ → ℚ) (i : ℕ) (v : ℚ) : ℕ → ℚ :=
  fun j => if j = i then v else f j

/-- The C `roundf` on the rational idealization: round half away from
zero. -/
def roundf (x : ℚ) : ℚ :=
  if 0 ≤ x then ((⌊x + 1 / 2⌋ : ℤ) : ℚ) else -((⌊-x + 1 / 2⌋ : ℤ) : ℚ)

/-- Embedding of `siggen_t`. -/
structure siggen_t where
  enable : Bool
  type : siggen_type_t
  num_cycles : ℕ
  n : ℚ
  freq : ℚ
  amplitude : ℚ
  offset : ℚ
  aux_param : ℕ → ℚ
  aux_var : ℕ → ℚ
  freq_sampling : ℚ
  p_out : ℕ
  out : ℚ
  p_run_siggen : siggen_run_t

/-- Embedding of `scale_siggen` (siggen.c, lines 191-195). -/
def scale_siggen (s : siggen_t) (amplitude offset : ℚ) : siggen_t :=
  { s with amplitude := amplitude, offset := offset }

/-- Embedding of `set_siggen_freq` (siggen.c, lines 203-229): for
Sine/DampedSine, in continuous mode (`num_cycles = 0`) the frequency is
replaced by `fabs(roundf(freq))` and in any case the per-sample phase
increment `aux_var[0] = 2·PI·freq/freq_sampling` is recomputed; for other
types the frequency is forced to 0. -/
def set_siggen_freq (s : siggen_t) : siggen_t :=
  match s.type with
  | .Sine | .DampedSine =>
    let s1 := if s.num_cycles = 0 then { s with freq := |roundf s.freq| }
              else s
    { s1 with
      aux_var := updn s1.aux_var 0 (2 * PI * s1.freq / s1.freq_sampling) }
  | .Trapezoidal => { s with freq := 0 }

/-- Embedding of `cfg_siggen` (siggen.c, lines 88-182): accepted only while
disabled; records type, cycle count and frequency, resets the sample index,
applies amplitude/offset, runs `set_siggen_freq`, copies the auxiliary
parameters, zeroes the auxiliary variables (including the `aux_var[0]` just
written by `set_siggen_freq`) and then derives the per-type auxiliary
variables and installs the run function. -/
def cfg_siggen (s : siggen_t) (sig_type : siggen_type_t) (num_cycles : ℕ)
    (freq amplitude offset : ℚ) (p_aux_param : ℕ → ℚ) : siggen_t :=
  if s.enable = false then
    let s1 := { s with
      type := sig_type, num_cycles := num_cycles, n := 0, freq := freq }
    let s2 := scale_siggen s1 amplitude offset
    let s3 := set_siggen_freq s2
    let s4 := { s3 with
      aux_param := fun i =>
        if i < NUM_SIGGEN_AUX_PARAM then p_aux_param i else s3.aux_param i
      aux_var := fun i =>
        if i < NUM_SIGGEN_AUX_VAR then 0 else s3.aux_var i }
    match sig_type with
    | .Sine =>
      let v1 := PI * s4.aux_param 0 / 180
      let base := (num_cycles : ℚ) +
        (s4.aux_param 1 - s4.aux_param 0) / 360
      let v2 := (if s4.aux_param 0 > s4.aux_param 1 then base + 1 else base)
        * (s4.freq_sampling / s4.freq)
      { s4 with
        aux_var := updn (updn s4.aux_var 1 v1) 2 v2
        p_run_siggen := siggen_run_t.run_sine }
    | .DampedSine =>
      let v1 := PI * s4.aux_param 0 / 180
      let base := (num_cycles : ℚ) +
        (s4.aux_param 1 - s4.aux_param 0) / 360
      let v2 := (if s4.aux_param 0 > s4.aux_param 1 then base + 1 else base)
        * (s4.freq_sampling / s4.freq)
      let v3 : ℚ := -(1 / s4.aux_param 2) / s4.freq_sampling
      { s4 with
        aux_var := updn (updn (updn s4.aux_var 1 v1) 2 v2) 3 v3
        p_run_siggen := siggen_run_t.run_dampedsine }
    | .Trapezoidal =>
      let v0 := s4.aux_param 0 * s4.freq_sampling
      let w1 := (s4.aux_param 0 + s4.aux_param 1) * s4.freq_sampling
      let w2 := (s4.aux_param 0 + s4.aux_param 1 + s4.aux_param 2) *
        s4.freq_sampling
      let v3 := amplitude / v0
      let v4 := amplitude / (s4.aux_param 2 * s4.freq_sampling)
      { s4 with
        aux_var := updn (updn (updn (updn (updn (updn s4.aux_var 0 v0)
          1 w1) 2 w2) 3 v3) 4 v4) 5 0
        p_run_siggen := siggen_run_t.run_trapezoidal }
  else s

/-- Embedding of `init_siggen` (siggen.c, lines 63-71): accepted only while
disabled; records the sampling frequency, applies the default Sine
configuration and binds the output pointer. -/
def init_siggen (s : siggen_t) (freq_sampling : ℚ) (p_out : ℕ) : siggen_t :=
  if s.enable = false then
    let s1 := { s with freq_sampling := freq_sampling }
    let s2 := cfg_siggen s1 siggen_type_t.Sine 1 1 1 0 (fun _ => 0)
    { s2 with p_out := p_out }
  else s

/-- Embedding of `disable_siggen` (siggen.c, lines 260-263). -/
def disable_siggen (s : siggen_t) : siggen_t :=
  { s with enable := false }

/-- Embedding of `reset_siggen` (siggen.c, lines 270-274): resets only the
sample index (the output write is commented out in the source). -/
def reset_siggen (s : siggen_t) : siggen_t :=
  { s with n := 0 }

/-- Embedding of `enable_siggen` (siggen.c, lines 236-253): only from the
disabled state; resets the sample index, re-derives the frequency-dependent
constants for Sine/DampedSine, then enables. -/
def enable_siggen (s : siggen_t) : siggen_t :=
  if s.enable = false then
    let s1 := reset_siggen s
    let s2 := match s1.type with
      | .Sine | .DampedSine => set_siggen_freq s1
      | .Trapezoidal => s1
    { s2 with enable := true }
  else s

/-- Embedding of `run_siggen_sine` (siggen.c, lines 281-313), parametrized
by the C `sin` routine `sinv`: writes the next sample and post-increments
the index; in finite mode (`aux_var[2] > 0`) auto-disables at the computed
length; in continuous mode, at each 1-second boundary (`n` reaching
`freq_sampling`) re-runs `set_siggen_freq` and resets the index. -/
def run_siggen_sine (sinv : ℚ → ℚ) (s : siggen_t) : siggen_t :=
  if s.enable then
    let s1 := { s with
      out := s.amplitude * sinv (s.aux_var 0 * s.n + s.aux_var 1) + s.offset
      n := s.n + 1 }
    if s1.aux_var 2 > 0 then
      if s1.n ≥ s1.aux_var 2 then disable_siggen s1 else s1
    else if s1.n ≥ s1.freq_sampling then
      let s2 := set_siggen_freq s1
      { s2 with n := 0 }
    else s1
  else s

/-- Embedding of `run_siggen_trapezoidal` (siggen.c, lines 345-380): while
the cycle counter `aux_var[5]` is below `num_cycles`, emits the rise,
plateau, fall or inter-cycle-zero sample selected by the index against the
breakpoints `aux_var[0..2]` and post-increments the index (the zero branch
also bumps the cycle counter and restarts the index); otherwise disables
and clears the cycle counter. -/
def run_siggen_trapezoidal (s : siggen_t) : siggen_t :=
  if s.enable then
    if s.aux_var 5 < (s.num_cycles : ℚ) then
      let s1 :=
        if s.n < s.aux_var 0 then
          { s with out := s.n * s.aux_var 3 + s.offset }
        else if s.n < s.aux_var 1 then
          { s with out := s.amplitude + s.offset }
        else if s.n < s.aux_var 2 then
          { s with out := s.aux_var 4 * (s.aux_var 1 - s.n) +
              s.amplitude + s.offset }
        else
          { s with
            out := s.offset
            aux_var := updn s.aux_var 5 (s.aux_var 5 + 1)
            n := 0 }
      { s1 with n := s1.n + 1 }
    else
      let s1 := disable_siggen s
      { s1 with aux_var := updn s1.aux_var 5 0 }
  else s

/-- Concrete per-module state used by the event-manager witnesses: two hard
channels (one at its debounce threshold, one about to hit its reset
threshold) and two soft channels (one freshly raised, one about to hit its
reset threshold); nothing committed yet. -/
def em_test_state : module_state_t :=
  { timebase_flag := true
    freq_timebase := 1000
    hard_interlocks :=
      ⟨2, fun i => if i = 0 then ⟨true, 2, 3, 10⟩ else ⟨true, 8, 3, 9⟩⟩
    soft_interlocks :=
      ⟨2, fun i => if i = 0 then ⟨true, 0, 2, 5⟩ else ⟨true, 4, 2, 5⟩⟩
    ps_hard_interlock := 0
    ps_soft_interlock := 0
    ps_state := ps_state_t.Off
    turn_off_calls := 0 }

/-- Concrete disabled continuous-mode sine generator (frequency 7/2 at a
100 Hz sampling rate) used by the signal-generator witnesses. -/
def sg_test_state : siggen_t :=
  { enable := false, type := siggen_type_t.Sine, num_cycles := 0, n := 0,
    freq := 7/2, amplitude := 1, offset := 0, aux_param := fun _ => 0,
    aux_var := fun _ => 0, freq_sampling := 100, p_out := 0, out := 0,
    p_run_siggen := siggen_run_t.run_sine }

/-! ## Theorems -/

/-- C6: for a slot with `n < num_elements`, `set_param` succeeds (returns 1)
and a subsequent `get_param` returns the stored representation of `v`
(exactly `v` for a float-typed slot); for `n ≥ num_elements`, `set_param`
fails (returns 0) leaving the state unchanged, and `get_param` returns NaN
(modelled `none`). -/
theorem set_param_get_param_roundtrip (s : param_bank_t) (id n : ℕ) (v : ℚ) :
    (n < (s.g_parameters id).num_elements →
      (set_param s id n v).2 = 1 ∧
      get_param (set_param s id n v).1 id n =
        some (param_store_val (s.g_parameters id).ptype v) ∧
      ((s.g_parameters id).ptype = param_type_t.is_float →
        get_param (set_param s id n v).1 id n = some v)) ∧
    ((s.g_parameters id).num_elements ≤ n →
      (set_param s id n v).2 = 0 ∧
      (set_param s id n v).1 = s ∧
      get_param s id n = none) := by
  constructor
  · intro h
    refine ⟨by simp [set_param, h], ?_, ?_⟩
    · simp [set_param, get_param, h]
    · intro hty
      simp [set_param, get_param, h, hty, param_store_val]
  · intro h
    have h2 : ¬ n < (s.g_parameters id).num_elements := by omega
    exact ⟨by simp [set_param, h2], by simp [set_param, h2],
      by simp [get_param, h2]⟩

/-- Witness for C6 at a concrete bank: one float slot of two elements,
exercising both the in-range index 0 and the out-of-range index 3. -/
theorem set_param_get_param_roundtrip_witness :
    let s0 : param_bank_t :=
      { g_parameters := fun _ =>
          { id := 0, ptype := param_type_t.is_float, num_elements := 2,
            p_val := 0 },
        mem := fun _ => 0 }
    ((set_param s0 0 0 (5/2)).2 = 1 ∧
      get_param (set_param s0 0 0 (5/2)).1 0 0 =
        some (param_store_val ((s0.g_parameters 0).ptype) (5/2)) ∧
      ((s0.g_parameters 0).ptype = param_type_t.is_float →
        get_param (set_param s0 0 0 (5/2)).1 0 0 = some (5/2))) ∧
    ((set_param s0 0 3 (5/2)).2 = 0 ∧
      (set_param s0 0 3 (5/2)).1 = s0 ∧
      get_param s0 0 3 = none) := by
  intro s0
  exact ⟨(set_param_get_param_roundtrip s0 0 0 (5/2)).1 (by decide),
    (set_param_get_param_roundtrip s0 0 3 (5/2)).2 (by decide)⟩

/-- C10: `init_param` called with `num_elements = 0` is a complete no-op:
the whole bank (in particular the slot `g_parameters[id]`) is unchanged, so
subsequent `get_param`/`set_param` calls behave according to the slot's
previous configuration. -/
theorem init_param_zero_elements_noop (s : param_bank_t) (id : ℕ)
    (ty : param_type_t) (p_param : ℕ) :
    init_param s id ty 0 p_param = s ∧
    (init_param s id ty 0 p_param).g_parameters id = s.g_parameters id ∧
    (∀ id2 n, get_param (init_param s id ty 0 p_param) id2 n =
      get_param s id2 n) ∧
    (∀ id2 n v, set_param (init_param s id ty 0 p_param) id2 n v =
      set_param s id2 n v) := by
  have h : init_param s id ty 0 p_param = s := by simp [init_param]
  exact ⟨h, by rw [h], fun id2 n => by rw [h], fun id2 n v => by rw [h]⟩

/-- C1: from every starting state, `turn_off` disables all eight PWM
outputs, zeroes every PWM duty cycle, resets the whole DSP pipeline state
(setpoint, reference, slew-rate limiters, error stage, every PI
accumulator, signal generator disabled, waveform reference reset, open-loop
flag reloaded) via `reset_controller`, and leaves the operating state Off —
or Interlock when it was Interlock. -/
theorem fap_4p_turn_off_safe_stop (s : fap_4p_state_t) :
    (∀ c, (fap_4p_turn_off s).pwm_enabled c = false) ∧
    (∀ c, (fap_4p_turn_off s).pwm_duty c = 0) ∧
    (fap_4p_turn_off s).i_load_setpoint = 0 ∧
    (fap_4p_turn_off s).i_load_reference = 0 ∧
    (fap_4p_turn_off s).srlim_i_load_reference = 0 ∧
    (fap_4p_turn_off s).dsp_error_i_load = 0 ∧
    (fap_4p_turn_off s).pi_i_load = 0 ∧
    (∀ m, (fap_4p_turn_off s).pi_i_share m = 0) ∧
    (fap_4p_turn_off s).srlim_siggen_amp = 0 ∧
    (fap_4p_turn_off s).srlim_siggen_offset = 0 ∧
    (fap_4p_turn_off s).siggen_enable = false ∧
    (fap_4p_turn_off s).wfmref_state = 0 ∧
    (fap_4p_turn_off s).openloop = s.loop_state ∧
    (fap_4p_turn_off s).ps_state =
      (if s.ps_state = ps_state_t.Interlock then ps_state_t.Interlock
       else ps_state_t.Off) := by
  by_cases h : s.ps_state = ps_state_t.Interlock <;>
    simp [fap_4p_turn_off, fap_4p_reset_controller, h]

/-- C5: both cited implementations of `reset_interlocks` (FAP-4P and
FAC-2P4S AC/DC) always clear the hard and soft interlock bitmasks, and set
the operating state to Off exactly when the current state is strictly below
Initializing in the enum ordering; for every state at or above Initializing
the operating state is left unchanged. -/
theorem reset_interlocks_state_guard (s : fap_4p_state_t)
    (u : fac_2p4s_acdc_state_t) :
    (fap_4p_reset_interlocks s).ps_hard_interlock = 0 ∧
    (fap_4p_reset_interlocks s).ps_soft_interlock = 0 ∧
    (fap_4p_reset_interlocks s).ps_state =
      (if ps_state_val s.ps_state < ps_state_val ps_state_t.Initializing
       then ps_state_t.Off else s.ps_state) ∧
    (fac_2p4s_acdc_reset_interlocks u).hard_interlock_mod_a = 0 ∧
    (fac_2p4s_acdc_reset_interlocks u).soft_interlock_mod_a = 0 ∧
    (fac_2p4s_acdc_reset_interlocks u).hard_interlock_mod_b = 0 ∧
    (fac_2p4s_acdc_reset_interlocks u).soft_interlock_mod_b = 0 ∧
    (fac_2p4s_acdc_reset_interlocks u).ps_state_mod_a =
      (if ps_state_val u.ps_state_mod_a <
          ps_state_val ps_state_t.Initializing
       then ps_state_t.Off else u.ps_state_mod_a) ∧
    (fac_2p4s_acdc_reset_interlocks u).ps_state_mod_b =
      (if ps_state_val u.ps_state_mod_a <
          ps_state_val ps_state_t.Initializing
       then ps_state_t.Off else u.ps_state_mod_b) := by
  by_cases h : ps_state_val s.ps_state <
    ps_state_val ps_state_t.Initializing <;>
  by_cases h2 : ps_state_val u.ps_state_mod_a <
    ps_state_val ps_state_t.Initializing <;>
  simp [fap_4p_reset_interlocks, fac_2p4s_acdc_reset_interlocks, h, h2]

/-- C7: while the signal generator is Running (`enable ≠ 0`), `cfg_siggen`
is a complete no-op: the returned generator equals the input one in every
field (type, num_cycles, sample index, freq, amplitude, offset, aux_param,
aux_var, run-function pointer, everything). -/
theorem cfg_siggen_running_is_noop (s : siggen_t) (sig_type : siggen_type_t)
    (num_cycles : ℕ) (freq amplitude offset : ℚ) (p_aux : ℕ → ℚ)
    (h : s.enable = true) :
    cfg_siggen s sig_type num_cycles freq amplitude offset p_aux = s := by
  simp [cfg_siggen, h]

/-- Witness for C7: reconfiguring a concrete running generator changes
nothing. -/
theorem cfg_siggen_running_is_noop_witness :
    let s : siggen_t :=
      { enable := true, type := siggen_type_t.Sine, num_cycles := 0, n := 3,
        freq := 5/2, amplitude := 1, offset := 0, aux_param := fun _ => 0,
        aux_var := fun _ => 0, freq_sampling := 100, p_out := 0, out := 0,
        p_run_siggen := siggen_run_t.run_sine }
    cfg_siggen s siggen_type_t.Trapezoidal 7 (9/4) 10 (-2) (fun _ => 1) = s :=
  cfg_siggen_running_is_noop _ siggen_type_t.Trapezoidal 7 (9/4) 10 (-2)
    (fun _ => 1) rfl

/-- C9: for a trapezoid configured with rise 1 s, plateau 2 s, fall 1 s,
amplitude 10, offset 0 at 1 sample per unit time and one cycle, the output
is 0 at sample 0, 10 at samples 1-3, 0 at sample 4; the cycle counter
`aux_var[5]` increments exactly at the completed trapezoid (sample 4), the
output then holds 0, and the generator auto-disables once the counter
reaches `num_cycles`. -/
theorem run_siggen_trapezoidal_shape :
    let base : siggen_t :=
      { enable := false, type := siggen_type_t.Sine, num_cycles := 0, n := 0,
        freq := 0, amplitude := 0, offset := 0, aux_param := fun _ => 0,
        aux_var := fun _ => 0, freq_sampling := 1, p_out := 0, out := 0,
        p_run_siggen := siggen_run_t.run_sine }
    let s0 : siggen_t := enable_siggen (cfg_siggen base
      siggen_type_t.Trapezoidal 1 0 10 0
      (fun j => if j = 0 then 1 else if j = 1 then 2 else
        if j = 2 then 1 else 0))
    (run_siggen_trapezoidal^[1] s0).out = 0 ∧
    (run_siggen_trapezoidal^[2] s0).out = 10 ∧
    (run_siggen_trapezoidal^[3] s0).out = 10 ∧
    (run_siggen_trapezoidal^[4] s0).out = 10 ∧
    (run_siggen_trapezoidal^[5] s0).out = 0 ∧
    (run_siggen_trapezoidal^[4] s0).aux_var 5 = 0 ∧
    (run_siggen_trapezoidal^[5] s0).aux_var 5 = 1 ∧
    (run_siggen_trapezoidal^[5] s0).enable = true ∧
    (run_siggen_trapezoidal^[6] s0).enable = false ∧
    (run_siggen_trapezoidal^[6] s0).out = 0 ∧
    (run_siggen_trapezoidal^[7] s0).out = 0 := by
  norm_num [Function.iterate_succ_apply, run_siggen_trapezoidal, cfg_siggen,
    enable_siggen, set_siggen_freq, scale_siggen, reset_siggen,
    disable_siggen, updn, NUM_SIGGEN_AUX_PARAM, NUM_SIGGEN_AUX_VAR]

/-- Helper: the channel count of a group is untouched by a pointwise channel
update. -/
theorem update_event_num_events (g : event_group_t) (i : ℕ)
    (f : event_t → event_t) :
    (update_event g i f).num_events = g.num_events := rfl

/-- Helper: a pointwise channel update acts at the updated index. -/
theorem update_event_at (g : event_group_t) (i : ℕ) (f : event_t → event_t) :
    (update_event g i f).event i = f (g.event i) := by
  simp [update_event]

/-- Helper: a pointwise channel update leaves other indices unchanged. -/
theorem update_event_ne (g : event_group_t) (i j : ℕ) (f : event_t → event_t)
    (h : j ≠ i) :
    (update_event g i f).event j = g.event j := by
  simp [update_event, h]

/-- Helper: a bit freshly OR-ed into a mask tests as present. -/
theorem lor_lut_and_lut_ne_zero (m i : ℕ) :
    (m ||| lut_bit_position i) &&& lut_bit_position i ≠ 0 := by
  rw [lut_bit_position, Nat.and_two_pow, Nat.testBit_lor,
    Nat.testBit_two_pow_self]
  simp

/-- C4: lifecycle of a raised channel under the debounce tick. A tick is
consumed at most once per time-base period (the function is idempotent
after consuming the flag, and a no-op without it); a raised channel's
counter increments exactly once per period (other fields untouched); the
tick never touches the module's bitmasks, state or turn-off callback; on
reaching the reset count the channel's flag and counter are cleared
(transient forgiven with no protective action); and a channel whose counter
has been ticked up to its debounce count commits on the next raise: the
sticky bitmask bit is set, turn-off is invoked and the state becomes
Interlock. -/
theorem run_interlocks_debouncing_lifecycle :
    (∀ s : module_state_t,
      run_interlocks_debouncing (run_interlocks_debouncing s) =
        run_interlocks_debouncing s) ∧
    (∀ s : module_state_t, s.timebase_flag = false →
      run_interlocks_debouncing s = s) ∧
    (∀ s : module_state_t,
      (run_interlocks_debouncing s).ps_hard_interlock =
        s.ps_hard_interlock ∧
      (run_interlocks_debouncing s).ps_soft_interlock =
        s.ps_soft_interlock ∧
      (run_interlocks_debouncing s).ps_state = s.ps_state ∧
      (run_interlocks_debouncing s).turn_off_calls = s.turn_off_calls) ∧
    (∀ (s : module_state_t) (i : ℕ), s.timebase_flag = true →
      i < s.hard_interlocks.num_events →
      (s.hard_interlocks.event i).flag = true →
      (s.hard_interlocks.event i).counter + 1 <
        (s.hard_interlocks.event i).reset_count →
      (run_interlocks_debouncing s).hard_interlocks.event i =
        { s.hard_interlocks.event i with
          counter := (s.hard_interlocks.event i).counter + 1 }) ∧
    (∀ (s : module_state_t) (i : ℕ), s.timebase_flag = true →
      i < s.soft_interlocks.num_events →
      (s.soft_interlocks.event i).flag = true →
      (s.soft_interlocks.event i).counter + 1 <
        (s.soft_interlocks.event i).reset_count →
      (run_interlocks_debouncing s).soft_interlocks.event i =
        { s.soft_interlocks.event i with
          counter := (s.soft_interlocks.event i).counter + 1 }) ∧
    (∀ (s : module_state_t) (i : ℕ), s.timebase_flag = true →
      i < s.hard_interlocks.num_events →
      (s.hard_interlocks.event i).flag = true →
      (s.hard_interlocks.event i).reset_count ≤
        (s.hard_interlocks.event i).counter + 1 →
      (run_interlocks_debouncing s).hard_interlocks.event i =
        { s.hard_interlocks.event i with flag := false, counter := 0 }) ∧
    (∀ (s : module_state_t) (i : ℕ), s.timebase_flag = true →
      i < s.soft_interlocks.num_events →
      (s.soft_interlocks.event i).flag = true →
      (s.soft_interlocks.event i).reset_count ≤
        (s.soft_interlocks.event i).counter + 1 →
      (run_interlocks_debouncing s).soft_interlocks.event i =
        { s.soft_interlocks.event i with flag := false, counter := 0 }) ∧
    (∀ (s : module_state_t) (i : ℕ), s.timebase_flag = true →
      i < s.hard_interlocks.num_events →
      (s.hard_interlocks.event i).flag = true →
      (s.hard_interlocks.event i).debounce_count ≤
        (s.hard_interlocks.event i).counter + 1 →
      (s.hard_interlocks.event i).counter + 1 <
        (s.hard_interlocks.event i).reset_count →
      s.ps_hard_interlock &&& lut_bit_position i = 0 →
      (set_hard_interlock (run_interlocks_debouncing s) i).ps_hard_interlock
          = s.ps_hard_interlock ||| lut_bit_position i ∧
      (set_hard_interlock (run_interlocks_debouncing s) i).turn_off_calls
          = s.turn_off_calls + 1 ∧
      (set_hard_interlock (run_interlocks_debouncing s) i).ps_state
          = ps_state_t.Interlock) := by
  refine ⟨?_, ?_, ?_, ?_, ?_, ?_, ?_, ?_⟩
  · intro s
    by_cases h : s.timebase_flag <;> simp [run_interlocks_debouncing, h]
  · intro s h
    simp [run_interlocks_debouncing, h]
  · intro s
    by_cases h : s.timebase_flag <;> simp [run_interlocks_debouncing, h]
  · intro s i htb hi hflag hlt
    simp [run_interlocks_debouncing, htb, debounce_group, debounce_event,
      hi, hflag, not_le_of_lt hlt]
  · intro s i htb hi hflag hlt
    simp [run_interlocks_debouncing, htb, debounce_group, debounce_event,
      hi, hflag, not_le_of_lt hlt]
  · intro s i htb hi hflag hge
    simp [run_interlocks_debouncing, htb, debounce_group, debounce_event,
      hi, hflag, hge]
  · intro s i htb hi hflag hge
    simp [run_interlocks_debouncing, htb, debounce_group, debounce_event,
      hi, hflag, hge]
  · intro s i htb hi hflag hdeb hlt hbit
    simp [run_interlocks_debouncing, htb, debounce_group, debounce_event,
      hi, hflag, not_le_of_lt hlt, set_hard_interlock, update_event,
      hdeb, hbit]

/-- Witness for C4 on the concrete state: one tick increments the
at-threshold hard channel and the fresh soft channel, forgives the two
channels at their reset thresholds, leaves ps fields alone, is idempotent,
and the incremented hard channel commits on the next raise. -/
theorem run_interlocks_debouncing_lifecycle_witness :
    run_interlocks_debouncing (run_interlocks_debouncing em_test_state) =
      run_interlocks_debouncing em_test_state ∧
    run_interlocks_debouncing { em_test_state with timebase_flag := false } =
      { em_test_state with timebase_flag := false } ∧
    ((run_interlocks_debouncing em_test_state).ps_hard_interlock = 0 ∧
      (run_interlocks_debouncing em_test_state).ps_soft_interlock = 0 ∧
      (run_interlocks_debouncing em_test_state).ps_state = ps_state_t.Off ∧
      (run_interlocks_debouncing em_test_state).turn_off_calls = 0) ∧
    (run_interlocks_debouncing em_test_state).hard_interlocks.event 0 =
      ⟨true, 3, 3, 10⟩ ∧
    (run_interlocks_debouncing em_test_state).soft_interlocks.event 0 =
      ⟨true, 1, 2, 5⟩ ∧
    (run_interlocks_debouncing em_test_state).hard_interlocks.event 1 =
      ⟨false, 0, 3, 9⟩ ∧
    (run_interlocks_debouncing em_test_state).soft_interlocks.event 1 =
      ⟨false, 0, 2, 5⟩ ∧
    ((set_hard_interlock (run_interlocks_debouncing em_test_state)
        0).ps_hard_interlock = 0 ||| lut_bit_position 0 ∧
      (set_hard_interlock (run_interlocks_debouncing em_test_state)
        0).turn_off_calls = 0 + 1 ∧
      (set_hard_interlock (run_interlocks_debouncing em_test_state)
        0).ps_state = ps_state_t.Interlock) :=
  ⟨run_interlocks_debouncing_lifecycle.1 em_test_state,
   run_interlocks_debouncing_lifecycle.2.1 _ rfl,
   run_interlocks_debouncing_lifecycle.2.2.1 em_test_state,
   run_interlocks_debouncing_lifecycle.2.2.2.1 em_test_state 0 rfl
     (by decide) rfl (by decide),
   run_interlocks_debouncing_lifecycle.2.2.2.2.1 em_test_state 0 rfl
     (by decide) rfl (by decide),
   run_interlocks_debouncing_lifecycle.2.2.2.2.2.1 em_test_state 1 rfl
     (by decide) rfl (by decide),
   run_interlocks_debouncing_lifecycle.2.2.2.2.2.2.1 em_test_state 1 rfl
     (by decide) rfl (by decide),
   run_interlocks_debouncing_lifecycle.2.2.2.2.2.2.2 em_test_state 0 rfl
     (by decide) rfl (by decide) (by decide) (by decide)⟩

/-- Helper: one `set_hard_interlock` call never increases the sum of the
turn-off invocation count and the pending commit budget of the channel (1
while the channel's bit is clear, 0 once latched). -/
theorem set_hard_interlock_commit_potential (s : module_state_t)
    (itlk : ℕ) :
    (set_hard_interlock s itlk).turn_off_calls +
      (if (set_hard_interlock s itlk).ps_hard_interlock &&&
          lut_bit_position itlk = 0 then 1 else 0) ≤
    s.turn_off_calls +
      (if s.ps_hard_interlock &&& lut_bit_position itlk = 0 then 1
       else 0) := by
  by_cases h1 : itlk < s.hard_interlocks.num_events
  · by_cases h2 : (s.hard_interlocks.event itlk).debounce_count ≤
        (s.hard_interlocks.event itlk).counter
    · by_cases h3 : s.ps_hard_interlock &&& lut_bit_position itlk = 0
      · simp [set_hard_interlock, update_event, h1, h2, h3,
          lor_lut_and_lut_ne_zero]
      · simp [set_hard_interlock, update_event, h1, h2, h3]
    · simp [set_hard_interlock, update_event, h1, h2]
  · simp [set_hard_interlock, h1]

/-- Helper: the soft twin of `set_hard_interlock_commit_potential`. -/
theorem set_soft_interlock_commit_potential (s : module_state_t)
    (itlk : ℕ) :
    (set_soft_interlock s itlk).turn_off_calls +
      (if (set_soft_interlock s itlk).ps_soft_interlock &&&
          lut_bit_position itlk = 0 then 1 else 0) ≤
    s.turn_off_calls +
      (if s.ps_soft_interlock &&& lut_bit_position itlk = 0 then 1
       else 0) := by
  by_cases h1 : itlk < s.soft_interlocks.num_events
  · by_cases h2 : (s.soft_interlocks.event itlk).debounce_count ≤
        (s.soft_interlocks.event itlk).counter
    · by_cases h3 : s.ps_soft_interlock &&& lut_bit_position itlk = 0
      · simp [set_soft_interlock, update_event, h1, h2, h3,
          lor_lut_and_lut_ne_zero]
      · simp [set_soft_interlock, update_event, h1, h2, h3]
    · simp [set_soft_interlock, update_event, h1, h2]
  · simp [set_soft_interlock, h1]

/-- Helper: iterating `set_hard_interlock` on one channel invokes turn-off
at most once beyond the initial count while the bit is clear, and never
once the bit is latched. -/
theorem set_hard_interlock_iter_calls (s : module_state_t) (itlk k : ℕ) :
    ((fun t => set_hard_interlock t itlk)^[k] s).turn_off_calls ≤
      s.turn_off_calls +
        (if s.ps_hard_interlock &&& lut_bit_position itlk = 0 then 1
         else 0) := by
  induction k generalizing s with
  | zero => exact Nat.le_add_right _ _
  | succ n ih =>
    rw [Function.iterate_succ_apply]
    calc ((fun t => set_hard_interlock t itlk)^[n]
            (set_hard_interlock s itlk)).turn_off_calls
        ≤ (set_hard_interlock s itlk).turn_off_calls +
            (if (set_hard_interlock s itlk).ps_hard_interlock &&&
                lut_bit_position itlk = 0 then 1 else 0) :=
          ih (set_hard_interlock s itlk)
      _ ≤ s.turn_off_calls +
            (if s.ps_hard_interlock &&& lut_bit_position itlk = 0 then 1
             else 0) := set_hard_interlock_commit_potential s itlk

/-- Helper: the soft twin of `set_hard_interlock_iter_calls`. -/
theorem set_soft_interlock_iter_calls (s : module_state_t) (itlk k : ℕ) :
    ((fun t => set_soft_interlock t itlk)^[k] s).turn_off_calls ≤
      s.turn_off_calls +
        (if s.ps_soft_interlock &&& lut_bit_position itlk = 0 then 1
         else 0) := by
  induction k generalizing s with
  | zero => exact Nat.le_add_right _ _
  | succ n ih =>
    rw [Function.iterate_succ_apply]
    calc ((fun t => set_soft_interlock t itlk)^[n]
            (set_soft_interlock s itlk)).turn_off_calls
        ≤ (set_soft_interlock s itlk).turn_off_calls +
            (if (set_soft_interlock s itlk).ps_soft_interlock &&&
                lut_bit_position itlk = 0 then 1 else 0) :=
          ih (set_soft_interlock s itlk)
      _ ≤ s.turn_off_calls +
            (if s.ps_soft_interlock &&& lut_bit_position itlk = 0 then 1
             else 0) := set_soft_interlock_commit_potential s itlk

/-- C3: `set_hard_interlock` (and likewise `set_soft_interlock`) on a valid
channel sets the channel's flag; when the counter is already at or above
the debounce count it commits at most once per reset cycle: turn-off is
invoked and the state set to Interlock only if the channel's bit is not
already in the sticky bitmask, the bit is OR-ed in, and the flag and
counter are cleared; when the bit is already latched nothing but the
flag/counter clearing happens; consequently raising the same channel
arbitrarily often without debounce ticks invokes turn-off at most once (and
not at all once the bit is latched). -/
theorem set_interlock_debounced_commit :
    (∀ (s : module_state_t) (itlk : ℕ),
      itlk < s.hard_interlocks.num_events →
      (s.hard_interlocks.event itlk).counter <
        (s.hard_interlocks.event itlk).debounce_count →
      set_hard_interlock s itlk =
        { s with hard_interlocks := (update_event s.hard_interlocks itlk
            fun e => { e with flag := true }) }) ∧
    (∀ (s : module_state_t) (itlk : ℕ),
      itlk < s.hard_interlocks.num_events →
      (s.hard_interlocks.event itlk).debounce_count ≤
        (s.hard_interlocks.event itlk).counter →
      s.ps_hard_interlock &&& lut_bit_position itlk = 0 →
      (set_hard_interlock s itlk).ps_hard_interlock =
        s.ps_hard_interlock ||| lut_bit_position itlk ∧
      (set_hard_interlock s itlk).turn_off_calls = s.turn_off_calls + 1 ∧
      (set_hard_interlock s itlk).ps_state = ps_state_t.Interlock ∧
      ((set_hard_interlock s itlk).hard_interlocks.event itlk).flag =
        false ∧
      ((set_hard_interlock s itlk).hard_interlocks.event itlk).counter =
        0) ∧
    (∀ (s : module_state_t) (itlk : ℕ),
      itlk < s.hard_interlocks.num_events →
      (s.hard_interlocks.event itlk).debounce_count ≤
        (s.hard_interlocks.event itlk).counter →
      s.ps_hard_interlock &&& lut_bit_position itlk ≠ 0 →
      (set_hard_interlock s itlk).ps_hard_interlock =
        s.ps_hard_interlock ∧
      (set_hard_interlock s itlk).turn_off_calls = s.turn_off_calls ∧
      (set_hard_interlock s itlk).ps_state = s.ps_state ∧
      ((set_hard_interlock s itlk).hard_interlocks.event itlk).flag =
        false ∧
      ((set_hard_interlock s itlk).hard_interlocks.event itlk).counter =
        0) ∧
    (∀ (s : module_state_t) (itlk k : ℕ),
      ((fun t => set_hard_interlock t itlk)^[k] s).turn_off_calls ≤
        s.turn_off_calls +
          (if s.ps_hard_interlock &&& lut_bit_position itlk = 0 then 1
           else 0)) ∧
    (∀ (s : module_state_t) (itlk : ℕ),
      itlk < s.soft_interlocks.num_events →
      (s.soft_interlocks.event itlk).counter <
        (s.soft_interlocks.event itlk).debounce_count →
      set_soft_interlock s itlk =
        { s with soft_interlocks := (update_event s.soft_interlocks itlk
            fun e => { e with flag := true }) }) ∧
    (∀ (s : module_state_t) (itlk : ℕ),
      itlk < s.soft_interlocks.num_events →
      (s.soft_interlocks.event itlk).debounce_count ≤
        (s.soft_interlocks.event itlk).counter →
      s.ps_soft_interlock &&& lut_bit_position itlk = 0 →
      (set_soft_interlock s itlk).ps_soft_interlock =
        s.ps_soft_interlock ||| lut_bit_position itlk ∧
      (set_soft_interlock s itlk).turn_off_calls = s.turn_off_calls + 1 ∧
      (set_soft_interlock s itlk).ps_state = ps_state_t.Interlock ∧
      ((set_soft_interlock s itlk).soft_interlocks.event itlk).flag =
        false ∧
      ((set_soft_interlock s itlk).soft_interlocks.event itlk).counter =
        0) ∧
    (∀ (s : module_state_t) (itlk : ℕ),
      itlk < s.soft_interlocks.num_events →
      (s.soft_interlocks.event itlk).debounce_count ≤
        (s.soft_interlocks.event itlk).counter →
      s.ps_soft_interlock &&& lut_bit_position itlk ≠ 0 →
      (set_soft_interlock s itlk).ps_soft_interlock =
        s.ps_soft_interlock ∧
      (set_soft_interlock s itlk).turn_off_calls = s.turn_off_calls ∧
      (set_soft_interlock s itlk).ps_state = s.ps_state ∧
      ((set_soft_interlock s itlk).soft_interlocks.event itlk).flag =
        false ∧
      ((set_soft_interlock s itlk).soft_interlocks.event itlk).counter =
        0) ∧
    (∀ (s : module_state_t) (itlk k : ℕ),
      ((fun t => set_soft_interlock t itlk)^[k] s).turn_off_calls ≤
        s.turn_off_calls +
          (if s.ps_soft_interlock &&& lut_bit_position itlk = 0 then 1
           else 0)) := by
  refine ⟨?_, ?_, ?_, set_hard_interlock_iter_calls, ?_, ?_, ?_,
    set_soft_interlock_iter_calls⟩
  · intro s itlk h1 hlt
    simp [set_hard_interlock, update_event, h1, not_le_of_lt hlt]
  · intro s itlk h1 h2 h3
    simp [set_hard_interlock, update_event, h1, h2, h3]
  · intro s itlk h1 h2 h3
    simp [set_hard_interlock, update_event, h1, h2, h3]
  · intro s itlk h1 hlt
    simp [set_soft_interlock, update_event, h1, not_le_of_lt hlt]
  · intro s itlk h1 h2 h3
    simp [set_soft_interlock, update_event, h1, h2, h3]
  · intro s itlk h1 h2 h3
    simp [set_soft_interlock, update_event, h1, h2, h3]

/-- Witness for C3 on the concrete state: raising below threshold only
flags, raising the over-threshold hard channel 1 (and soft channel 1)
commits exactly once, an already-latched bit commits nothing, and five
repeated raises invoke turn-off at most once. -/
theorem set_interlock_debounced_commit_witness :
    (set_hard_interlock em_test_state 0 =
      { em_test_state with hard_interlocks :=
          (update_event em_test_state.hard_interlocks 0
            fun e => { e with flag := true }) }) ∧
    ((set_hard_interlock em_test_state 1).ps_hard_interlock =
        em_test_state.ps_hard_interlock ||| lut_bit_position 1 ∧
      (set_hard_interlock em_test_state 1).turn_off_calls =
        em_test_state.turn_off_calls + 1 ∧
      (set_hard_interlock em_test_state 1).ps_state =
        ps_state_t.Interlock ∧
      ((set_hard_interlock em_test_state 1).hard_interlocks.event 1).flag =
        false ∧
      ((set_hard_interlock em_test_state
        1).hard_interlocks.event 1).counter = 0) ∧
    ((set_hard_interlock
        { em_test_state with ps_hard_interlock := lut_bit_position 1 }
        1).ps_hard_interlock = lut_bit_position 1 ∧
      (set_hard_interlock
        { em_test_state with ps_hard_interlock := lut_bit_position 1 }
        1).turn_off_calls = em_test_state.turn_off_calls ∧
      (set_hard_interlock
        { em_test_state with ps_hard_interlock := lut_bit_position 1 }
        1).ps_state = em_test_state.ps_state ∧
      ((set_hard_interlock
        { em_test_state with ps_hard_interlock := lut_bit_position 1 }
        1).hard_interlocks.event 1).flag = false ∧
      ((set_hard_interlock
        { em_test_state with ps_hard_interlock := lut_bit_position 1 }
        1).hard_interlocks.event 1).counter = 0) ∧
    (((fun t => set_hard_interlock t 1)^[5] em_test_state).turn_off_calls ≤
      em_test_state.turn_off_calls +
        (if em_test_state.ps_hard_interlock &&& lut_bit_position 1 = 0
         then 1 else 0)) ∧
    (set_soft_interlock em_test_state 0 =
      { em_test_state with soft_interlocks :=
          (update_event em_test_state.soft_interlocks 0
            fun e => { e with flag := true }) }) ∧
    ((set_soft_interlock em_test_state 1).ps_soft_interlock =
        em_test_state.ps_soft_interlock ||| lut_bit_position 1 ∧
      (set_soft_interlock em_test_state 1).turn_off_calls =
        em_test_state.turn_off_calls + 1 ∧
      (set_soft_interlock em_test_state 1).ps_state =
        ps_state_t.Interlock ∧
      ((set_soft_interlock em_test_state 1).soft_interlocks.event 1).flag =
        false ∧
      ((set_soft_interlock em_test_state
        1).soft_interlocks.event 1).counter = 0) ∧
    (((fun t => set_soft_interlock t 1)^[5] em_test_state).turn_off_calls ≤
      em_test_state.turn_off_calls +
        (if em_test_state.ps_soft_interlock &&& lut_bit_position 1 = 0
         then 1 else 0)) :=
  ⟨set_interlock_debounced_commit.1 em_test_state 0 (by decide) (by decide),
   set_interlock_debounced_commit.2.1 em_test_state 1 (by decide)
     (by decide) (by decide),
   set_interlock_debounced_commit.2.2.1
     { em_test_state with ps_hard_interlock := lut_bit_position 1 } 1
     (by decide) (by decide) (by decide),
   set_interlock_debounced_commit.2.2.2.1 em_test_state 1 5,
   set_interlock_debounced_commit.2.2.2.2.1 em_test_state 0 (by decide)
     (by decide),
   set_interlock_debounced_commit.2.2.2.2.2.1 em_test_state 1 (by decide)
     (by decide) (by decide),
   set_interlock_debounced_commit.2.2.2.2.2.2.2 em_test_state 1 5⟩

/-- Helper: `SATURATE` (with coherent bounds) lands in `[minv, maxv]`. -/
theorem SATURATE_mem (x maxv minv : ℕ) (h : minv ≤ maxv) :
    minv ≤ SATURATE x maxv minv ∧ SATURATE x maxv minv ≤ maxv := by
  unfold SATURATE
  split_ifs <;> omega

/-- Helper: the derived count is monotone in the time argument for a
nonnegative time-base frequency. -/
theorem counts_from_us_mono (freq : ℚ) (hf : 0 ≤ freq) {a b : ℕ}
    (h : a ≤ b) : counts_from_us freq a ≤ counts_from_us freq b := by
  unfold counts_from_us
  have hc : (a : ℚ) ≤ (b : ℚ) := by exact_mod_cast h
  have hm : freq * (a : ℚ) * (1 / 1000000) ≤ freq * (b : ℚ) * (1 / 1000000) :=
    mul_le_mul_of_nonneg_right (mul_le_mul_of_nonneg_left hc hf)
      (by norm_num)
  exact Int.toNat_le_toNat (Int.floor_le_floor hm)

/-- Helper: with a time base of at least 0.2 Hz, the maximum debounce count
is strictly below the maximum reset count. -/
theorem counts_max_debounce_lt_max_reset (freq : ℚ) (hf : 1 / 5 ≤ freq) :
    counts_from_us freq MAX_DEBOUNCE_TIME_US + 1 ≤
      counts_from_us freq MAX_RESET_TIME_US := by
  unfold counts_from_us MAX_DEBOUNCE_TIME_US MAX_RESET_TIME_US
  have h5 : freq * ((5000000 : ℕ) : ℚ) * (1 / 1000000) = 5 * freq := by
    push_cast
    ring
  have h10 : freq * ((10000000 : ℕ) : ℚ) * (1 / 1000000) = 10 * freq := by
    push_cast
    ring
  rw [h5, h10]
  have hD0 : (0 : ℤ) ≤ ⌊5 * freq⌋ := Int.le_floor.mpr (by push_cast; linarith)
  have hDR : ⌊5 * freq⌋ + 1 ≤ ⌊10 * freq⌋ := by
    refine Int.le_floor.mpr ?_
    have hfl : ((⌊5 * freq⌋ : ℤ) : ℚ) ≤ 5 * freq := Int.floor_le _
    push_cast
    linarith
  omega

/-- Helper: every channel written by `init_event_manager` has a strictly
larger reset count than debounce count, with the reset count capped by the
maximum reset count and the debounce count capped by the maximum debounce
count. -/
theorem init_itlk_event_bounds (freq : ℚ) (hf : 1 / 5 ≤ freq)
    (db rs : ℕ) :
    (init_itlk_event freq (counts_from_us freq MAX_RESET_TIME_US) db
        rs).debounce_count <
      (init_itlk_event freq (counts_from_us freq MAX_RESET_TIME_US) db
        rs).reset_count ∧
    (init_itlk_event freq (counts_from_us freq MAX_RESET_TIME_US) db
        rs).reset_count ≤ counts_from_us freq MAX_RESET_TIME_US ∧
    (init_itlk_event freq (counts_from_us freq MAX_RESET_TIME_US) db
        rs).debounce_count ≤ counts_from_us freq MAX_DEBOUNCE_TIME_US := by
  have hf0 : (0 : ℚ) ≤ freq := le_trans (by norm_num) hf
  have hsat : SATURATE db MAX_DEBOUNCE_TIME_US 0 ≤ MAX_DEBOUNCE_TIME_US := by
    unfold SATURATE
    split_ifs <;> omega
  have hdb_le : counts_from_us freq (SATURATE db MAX_DEBOUNCE_TIME_US 0) ≤
      counts_from_us freq MAX_DEBOUNCE_TIME_US :=
    counts_from_us_mono freq hf0 hsat
  have hkey := counts_max_debounce_lt_max_reset freq hf
  have hco : counts_from_us freq (SATURATE db MAX_DEBOUNCE_TIME_US 0) + 1 ≤
      counts_from_us freq MAX_RESET_TIME_US := by omega
  have hmem := SATURATE_mem (counts_from_us freq rs)
    (counts_from_us freq MAX_RESET_TIME_US)
    (counts_from_us freq (SATURATE db MAX_DEBOUNCE_TIME_US 0) + 1) hco
  simp only [init_itlk_event]
  exact ⟨by omega, hmem.2, hdb_le⟩

/-- C2: after `init_event_manager`, every configured hard and soft channel
satisfies `reset_count > debounce_count`, with `reset_count` capped at the
count corresponding to `MAX_RESET_TIME_US` and `debounce_count` capped at
the count corresponding to `MAX_DEBOUNCE_TIME_US`, for arbitrary input
debounce/reset time arrays (time base at least 0.2 Hz, channel counts
within the array bound). -/
theorem init_event_manager_thresholds (s : module_state_t) (freq : ℚ)
    (num_hard num_soft : ℕ) (hdb hrs sdb srs : ℕ → ℕ)
    (hfreq : 1 / 5 ≤ freq) (hh : num_hard ≤ NUM_MAX_EVENT_COUNTER)
    (hs : num_soft ≤ NUM_MAX_EVENT_COUNTER) :
    (∀ i, i < num_hard →
      ((init_event_manager s freq num_hard num_soft hdb hrs sdb
          srs).hard_interlocks.event i).debounce_count <
        ((init_event_manager s freq num_hard num_soft hdb hrs sdb
          srs).hard_interlocks.event i).reset_count ∧
      ((init_event_manager s freq num_hard num_soft hdb hrs sdb
          srs).hard_interlocks.event i).reset_count ≤
        counts_from_us freq MAX_RESET_TIME_US ∧
      ((init_event_manager s freq num_hard num_soft hdb hrs sdb
          srs).hard_interlocks.event i).debounce_count ≤
        counts_from_us freq MAX_DEBOUNCE_TIME_US) ∧
    (∀ i, i < num_soft →
      ((init_event_manager s freq num_hard num_soft hdb hrs sdb
          srs).soft_interlocks.event i).debounce_count <
        ((init_event_manager s freq num_hard num_soft hdb hrs sdb
          srs).soft_interlocks.event i).reset_count ∧
      ((init_event_manager s freq num_hard num_soft hdb hrs sdb
          srs).soft_interlocks.event i).reset_count ≤
        counts_from_us freq MAX_RESET_TIME_US ∧
      ((init_event_manager s freq num_hard num_soft hdb hrs sdb
          srs).soft_interlocks.event i).debounce_count ≤
        counts_from_us freq MAX_DEBOUNCE_TIME_US) := by
  constructor
  · intro i hi
    have hi32 : i < NUM_MAX_EVENT_COUNTER := lt_of_lt_of_le hi hh
    simpa [init_event_manager, init_event_group, hi, hi32] using
      init_itlk_event_bounds freq hfreq (hdb i) (hrs i)
  · intro i hi
    have hi32 : i < NUM_MAX_EVENT_COUNTER := lt_of_lt_of_le hi hs
    simpa [init_event_manager, init_event_group, hi, hi32] using
      init_itlk_event_bounds freq hfreq (sdb i) (srs i)

/-- Witness for C2 at a 1 kHz time base with an over-limit debounce time
(7 s, saturated to 5 s) and an under-debounce reset time (1 s, pushed up to
`debounce_count + 1`). -/
theorem init_event_manager_thresholds_witness :
    (((init_event_manager em_test_state 1000 2 1 (fun _ => 7000000)
        (fun _ => 1000000) (fun _ => 0) (fun _ => 20000000)
        ).hard_interlocks.event 0).debounce_count <
      ((init_event_manager em_test_state 1000 2 1 (fun _ => 7000000)
        (fun _ => 1000000) (fun _ => 0) (fun _ => 20000000)
        ).hard_interlocks.event 0).reset_count ∧
      ((init_event_manager em_test_state 1000 2 1 (fun _ => 7000000)
        (fun _ => 1000000) (fun _ => 0) (fun _ => 20000000)
        ).hard_interlocks.event 0).reset_count ≤
        counts_from_us 1000 MAX_RESET_TIME_US ∧
      ((init_event_manager em_test_state 1000 2 1 (fun _ => 7000000)
        (fun _ => 1000000) (fun _ => 0) (fun _ => 20000000)
        ).hard_interlocks.event 0).debounce_count ≤
        counts_from_us 1000 MAX_DEBOUNCE_TIME_US) ∧
    (((init_event_manager em_test_state 1000 2 1 (fun _ => 7000000)
        (fun _ => 1000000) (fun _ => 0) (fun _ => 20000000)
        ).soft_interlocks.event 0).debounce_count <
      ((init_event_manager em_test_state 1000 2 1 (fun _ => 7000000)
        (fun _ => 1000000) (fun _ => 0) (fun _ => 20000000)
        ).soft_interlocks.event 0).reset_count ∧
      ((init_event_manager em_test_state 1000 2 1 (fun _ => 7000000)
        (fun _ => 1000000) (fun _ => 0) (fun _ => 20000000)
        ).soft_interlocks.event 0).reset_count ≤
        counts_from_us 1000 MAX_RESET_TIME_US ∧
      ((init_event_manager em_test_state 1000 2 1 (fun _ => 7000000)
        (fun _ => 1000000) (fun _ => 0) (fun _ => 20000000)
        ).soft_interlocks.event 0).debounce_count ≤
        counts_from_us 1000 MAX_DEBOUNCE_TIME_US) :=
  ⟨(init_event_manager_thresholds em_test_state 1000 2 1 (fun _ => 7000000)
      (fun _ => 1000000) (fun _ => 0) (fun _ => 20000000) (by norm_num)
      (by decide) (by decide)).1 0 (by decide),
   (init_event_manager_thresholds em_test_state 1000 2 1 (fun _ => 7000000)
      (fun _ => 1000000) (fun _ => 0) (fun _ => 20000000) (by norm_num)
      (by decide) (by decide)).2 0 (by decide)⟩

/-- Helper: `roundf` of a nonnegative rational is its floor after adding
one half. -/
theorem roundf_nonneg_eq (x : ℚ) (h : 0 ≤ x) :
    roundf x = ((⌊x + 1 / 2⌋ : ℤ) : ℚ) := by
  simp [roundf, h]

/-- Helper: `roundf` of a nonnegative rational is nonnegative. -/
theorem roundf_nonneg (x : ℚ) (h : 0 ≤ x) : 0 ≤ roundf x := by
  rw [roundf_nonneg_eq x h]
  have hfl : (0 : ℤ) ≤ ⌊x + 1 / 2⌋ := Int.le_floor.mpr (by push_cast; linarith)
  exact_mod_cast hfl

/-- Helper: `roundf` of a nonnegative rational is a natural number. -/
theorem roundf_exists_nat (x : ℚ) (h : 0 ≤ x) :
    ∃ k : ℕ, roundf x = (k : ℚ) := by
  refine ⟨(⌊x + 1 / 2⌋).toNat, ?_⟩
  rw [roundf_nonneg_eq x h]
  have hfl : (0 : ℤ) ≤ ⌊x + 1 / 2⌋ := Int.le_floor.mpr (by push_cast; linarith)
  exact_mod_cast (Int.toNat_of_nonneg hfl).symm

/-- Helper: `roundf` lands within one half of its argument. -/
theorem roundf_nearest (x : ℚ) (h : 0 ≤ x) : |roundf x - x| ≤ 1 / 2 := by
  rw [roundf_nonneg_eq x h, abs_le]
  constructor
  · have h1 := Int.sub_one_lt_floor (x + 1 / 2)
    linarith
  · have h2 : ((⌊x + 1 / 2⌋ : ℤ) : ℚ) ≤ x + 1 / 2 := Int.floor_le _
    linarith

/-- C8: for the Sine/DampedSine variants in continuous mode
(`num_cycles = 0`) with a nonnegative frequency, `set_siggen_freq` replaces
the frequency by its nearest nonnegative integer and recomputes the
per-sample phase increment `aux_var[0]` from it — both at configuration
time (via `cfg_siggen`) and again at each 1-second boundary during Running
(when the incremented sample index reaches `freq_sampling` inside
`run_siggen_sine`), after which the index is reset to 0. -/
theorem continuous_sine_freq_rounding :
    (∀ s : siggen_t,
      (s.type = siggen_type_t.Sine ∨ s.type = siggen_type_t.DampedSine) →
      s.num_cycles = 0 → 0 ≤ s.freq →
      (set_siggen_freq s).freq = roundf s.freq ∧
      (∃ k : ℕ, roundf s.freq = (k : ℚ)) ∧
      |roundf s.freq - s.freq| ≤ 1 / 2 ∧
      (set_siggen_freq s).aux_var 0 =
        2 * PI * roundf s.freq / s.freq_sampling) ∧
    (∀ (s : siggen_t) (ty : siggen_type_t) (f a o : ℚ) (p : ℕ → ℚ),
      (ty = siggen_type_t.Sine ∨ ty = siggen_type_t.DampedSine) →
      s.enable = false → 0 ≤ f →
      (cfg_siggen s ty 0 f a o p).freq = roundf f) ∧
    (∀ (sinv : ℚ → ℚ) (s : siggen_t),
      s.enable = true → s.type = siggen_type_t.Sine → s.num_cycles = 0 →
      0 ≤ s.freq → s.aux_var 2 ≤ 0 → s.freq_sampling ≤ s.n + 1 →
      (run_siggen_sine sinv s).freq = roundf s.freq ∧
      (run_siggen_sine sinv s).aux_var 0 =
        2 * PI * roundf s.freq / s.freq_sampling ∧
      (run_siggen_sine sinv s).n = 0) := by
  refine ⟨?_, ?_, ?_⟩
  · intro s hty hnc hf
    have hset : (set_siggen_freq s).freq = roundf s.freq ∧
        (set_siggen_freq s).aux_var 0 =
          2 * PI * roundf s.freq / s.freq_sampling := by
      rcases hty with h | h <;>
        simp [set_siggen_freq, h, hnc, updn,
          abs_of_nonneg (roundf_nonneg _ hf)]
    exact ⟨hset.1, roundf_exists_nat _ hf, roundf_nearest _ hf, hset.2⟩
  · intro s ty f a o p hty hen hf
    rcases hty with h | h <;> subst h <;>
      simp [cfg_siggen, hen, scale_siggen, set_siggen_freq, updn,
        abs_of_nonneg (roundf_nonneg _ hf)]
  · intro sinv s hen hty hnc hf h2 hn
    simp [run_siggen_sine, hen, hty, hnc, not_lt.mpr h2, hn,
      set_siggen_freq, updn, abs_of_nonneg (roundf_nonneg _ hf)]

/-- Witness for C8 at frequency 7/2 (rounds to 4) and a 100 Hz sampling
rate, exercising rounding through `set_siggen_freq`, through `cfg_siggen`
while disabled, and through the 1-second boundary of `run_siggen_sine` at
sample index 99. -/
theorem continuous_sine_freq_rounding_witness :
    (((set_siggen_freq sg_test_state).freq = roundf sg_test_state.freq ∧
      (∃ k : ℕ, roundf sg_test_state.freq = (k : ℚ)) ∧
      |roundf sg_test_state.freq - sg_test_state.freq| ≤ 1 / 2 ∧
      (set_siggen_freq sg_test_state).aux_var 0 =
        2 * PI * roundf sg_test_state.freq /
          sg_test_state.freq_sampling)) ∧
    (cfg_siggen sg_test_state siggen_type_t.Sine 0 (7/2) 1 0
      (fun _ => 0)).freq = roundf (7/2) ∧
    ((run_siggen_sine (fun _ => 0)
        { sg_test_state with enable := true, n := 99 }).freq =
      roundf { sg_test_state with enable := true, n := 99 }.freq ∧
     (run_siggen_sine (fun _ => 0)
        { sg_test_state with enable := true, n := 99 }).aux_var 0 =
      2 * PI * roundf { sg_test_state with enable := true, n := 99 }.freq /
        { sg_test_state with enable := true, n := 99 }.freq_sampling ∧
     (run_siggen_sine (fun _ => 0)
        { sg_test_state with enable := true, n := 99 }).n = 0) :=
  ⟨continuous_sine_freq_rounding.1 sg_test_state (Or.inl rfl) rfl
     (by norm_num [sg_test_state]),
   continuous_sine_freq_rounding.2.1 sg_test_state siggen_type_t.Sine
     (7/2) 1 0 (fun _ => 0) (Or.inl rfl) rfl (by norm_num),
   continuous_sine_freq_rounding.2.2 (fun _ => 0)
     { sg_test_state with enable := true, n := 99 } rfl rfl rfl
     (by norm_num [sg_test_state]) (by norm_num [sg_test_state])
     (by norm_num [sg_test_state])⟩

end UdcDspFw
